import Mathlib

/-
Verification development for the binary_ninja_mcp request-handling core.

The Python sources embedded here:
  - src/plugin/server/http_server.py   (MCPRequestHandler: routing, parameter
    decoding, response shaping)
  - src/plugin/core/binary_operations.py (BinaryOperations: identifier
    resolution, pagination of facade results, comment operations)
  - src/plugin/api/endpoints.py        (BinaryNinjaEndpoints: imports/exports/
    namespaces/search)
  - src/plugins/binary_ninja_mcp/utils/string_utils.py (parse_int_or_default)

Machine integers are modelled as Int/Nat (Python ints are unbounded, so no
modular wraparound is needed).  The Binary Ninja host API (the "Facade") is
modelled as explicit state (`BView`); host-probed record construction that the
handler code only passes through (segments, data variables, class-name
probing, decompiler text) is carried as prebuilt fields of that state.
-/

/-- JSON values as produced by Python json loading and by the handler's
response construction.  Numbers are modelled as integers only; float layout
is outside the shallow embedding. -/
inductive Json where
  | null
  | bool (b : Bool)
  | num (n : Int)
  | str (s : String)
  | arr (xs : List Json)
  | obj (fields : List (String × Json))

/-- Python type name of a JSON-decoded value, as used in CPython error
messages such as AttributeError text. -/
def pyTypeName : Json → String
  | .null => "NoneType"
  | .bool _ => "bool"
  | .num _ => "int"
  | .str _ => "str"
  | .arr _ => "list"
  | .obj _ => "dict"

/-- Python truthiness of a JSON-decoded value (`if not x`). -/
def jTruthy : Json → Bool
  | .null => false
  | .bool b => b
  | .num n => decide (n ≠ 0)
  | .str s => !s.data.isEmpty
  | .arr xs => !xs.isEmpty
  | .obj fs => !fs.isEmpty

/-- `d.get(k)` on a Python dict represented as an ordered association list
with unique keys. -/
def jGet (j : Json) (k : String) : Option Json :=
  match j with
  | .obj fs => (fs.find? (fun p => p.1 = k)).map (fun p => p.2)
  | _ => none

/-- `a or b` on two `dict.get` results (first truthy value wins; Python
returns the second operand unchanged when the first is falsy). -/
def pyOr (a b : Option Json) : Option Json :=
  match a with
  | some x => if jTruthy x then some x else b
  | none => b

/-- Python whitespace accepted by `int()` and `str.strip()` (ASCII part). -/
def isPyWs (c : Char) : Bool :=
  c = ' ' || c = '\t' || c = '\n' || c = '\r' || c.toNat = 11 || c.toNat = 12

def stripWsChars (l : List Char) : List Char :=
  ((l.dropWhile isPyWs).reverse.dropWhile isPyWs).reverse

/-- Python `str.strip()` (ASCII whitespace; Unicode whitespace classes are
not modelled). -/
def pyStrip (s : String) : String := String.mk (stripWsChars s.data)

/-- Value of a digit character under the given base, if valid. -/
def digitVal (base : Nat) (c : Char) : Option Nat :=
  let v : Option Nat :=
    if '0' ≤ c ∧ c ≤ '9' then some (c.toNat - 48)
    else if 'a' ≤ c ∧ c ≤ 'f' then some (c.toNat - 87)
    else if 'A' ≤ c ∧ c ≤ 'F' then some (c.toNat - 55)
    else none
  match v with
  | some d => if d < base then some d else none
  | none => none

def digitsValGo (base : Nat) (acc : Nat) : List Char → Option Nat
  | [] => some acc
  | c :: cs =>
    match digitVal base c with
    | some d => digitsValGo base (acc * base + d) cs
    | none => none

/-- Value of a nonempty digit string under the given base. -/
def digitsVal (base : Nat) : List Char → Option Nat
  | [] => none
  | l => digitsValGo base 0 l

/-- Model of Python `int(s)` / `int(s, 16)`: optional surrounding
whitespace, optional sign, for base 16 an optional `0x`/`0X` prefix, then a
nonempty digit string.  Underscore digit grouping and non-ASCII digits are
not modelled. -/
def pyIntOfChars (base16 : Bool) (l : List Char) : Option Int :=
  let l1 := stripWsChars l
  let signed : Bool × List Char :=
    match l1 with
    | '+' :: t => (false, t)
    | '-' :: t => (true, t)
    | t => (false, t)
  let l2 := signed.2
  let l3 :=
    if base16 then
      match l2 with
      | '0' :: 'x' :: t => t
      | '0' :: 'X' :: t => t
      | t => t
    else l2
  match digitsVal (if base16 then 16 else 10) l3 with
  | some v => some (if signed.1 then -(v : Int) else (v : Int))
  | none => none

/-- Python `int(s)`. -/
def pyIntDec (s : String) : Option Int := pyIntOfChars false s.data

/-- Python `int(s, 16)`. -/
def pyIntHex (s : String) : Option Int := pyIntOfChars true s.data

/-- Python `s.isdigit()` restricted to ASCII digits. -/
def pyIsDigit (s : String) : Bool :=
  !s.data.isEmpty && s.data.all (fun c => '0' ≤ c ∧ c ≤ '9')

/-- Does `l` begin with `pat`? -/
def leadsWith : List Char → List Char → Bool
  | [], _ => true
  | _ :: _, [] => false
  | a :: as, b :: bs => a = b && leadsWith as bs

/-- `pat in s` for strings (Python substring containment). -/
def containsSeqL (pat : List Char) : List Char → Bool
  | [] => pat.isEmpty
  | c :: rest => leadsWith pat (c :: rest) || containsSeqL pat rest

def containsSeq (pat s : String) : Bool := containsSeqL pat.data s.data

/-- `s.startswith(pat)`. -/
def startsWith2 (s pat : String) : Bool := leadsWith pat.data s.data

/-- ASCII lowering of one character (Python `str.lower()` restricted to
ASCII; full Unicode case mapping is not modelled). -/
def lowerChar (c : Char) : Char :=
  if 'A' ≤ c ∧ c ≤ 'Z' then Char.ofNat (c.toNat + 32) else c

def lowerStr (s : String) : String := String.mk (s.data.map lowerChar)

/-- Codepoint-lexicographic `a <= b` on character lists: the order Python
uses to compare strings. -/
def lexLe : List Char → List Char → Bool
  | [], _ => true
  | _ :: _, [] => false
  | a :: as, b :: bs =>
    if a.toNat < b.toNat then true
    else if a.toNat = b.toNat then lexLe as bs
    else false

def strLe (a b : String) : Bool := lexLe a.data b.data

/-- Python `hex(n)` for a non-negative int: lowercase digits with a `0x`
marker. -/
def hexDigitChar (n : Nat) : Char :=
  if n < 10 then Char.ofNat (48 + n) else Char.ofNat (87 + n)

def natToHexGo : Nat → Nat → List Char → List Char
  | 0, _, acc => acc
  | f + 1, n, acc =>
    if n = 0 then acc else natToHexGo f (n / 16) (hexDigitChar (n % 16) :: acc)

def hexStr (n : Nat) : String :=
  if n = 0 then "0x0" else "0x" ++ String.mk (natToHexGo (n + 1) n [])

/-- Python `urllib.parse.unquote` at the character level: `%HH` escapes are
decoded to the character with that code, invalid escapes pass through.
Multi-byte UTF-8 percent sequences are not modelled. -/
def unquoteChars : List Char → List Char
  | [] => []
  | '%' :: a :: b :: rest =>
    match digitVal 16 a, digitVal 16 b with
    | some ha, some hb => Char.ofNat (16 * ha + hb) :: unquoteChars rest
    | _, _ => '%' :: unquoteChars (a :: b :: rest)
  | c :: rest => c :: unquoteChars rest

/-- Split at the first occurrence of `sep`, Python `l.split(sep, 1)`. -/
def splitOnce (sep : Char) : List Char → Option (List Char × List Char)
  | [] => none
  | c :: rest =>
    if c = sep then some ([], rest)
    else (splitOnce sep rest).map (fun p => (c :: p.1, p.2))

/-- `urllib.parse.parse_qsl` with default arguments: fields split on `&`,
empty fields skipped, fields without `=` skipped, fields with an empty value
skipped, `+` decoded to space, percent-escapes decoded. -/
def parseQsl (qs : String) : List (String × String) :=
  (qs.data.splitOn '&').filterMap fun field =>
    if field.isEmpty then none
    else
      match splitOnce '=' field with
      | none => none
      | some (n, v) =>
        if v.isEmpty then none
        else
          some (String.mk (unquoteChars (n.map (fun c => if c = '+' then ' ' else c))),
                String.mk (unquoteChars (v.map (fun c => if c = '+' then ' ' else c))))

/-- Insert into a Python dict held as an ordered association list: an
existing key keeps its position and takes the new value, a new key appends. -/
def dictInsert (d : List (String × α)) (k : String) (v : α) : List (String × α) :=
  if d.any (fun p => p.1 = k) then
    d.map (fun p => if p.1 = k then (k, v) else p)
  else d ++ [(k, v)]

/-- `dict(pairs)`: last occurrence of a duplicate key wins. -/
def dictOfPairs (ps : List (String × α)) : List (String × α) :=
  ps.foldl (fun d p => dictInsert d p.1 p.2) []

def paramsGet (ps : List (String × String)) (k : String) : Option String :=
  (ps.find? (fun p => p.1 = k)).map (fun p => p.2)

/-- `urlparse(raw).path`: the request path up to the query separator. -/
def urlPath (raw : String) : String := String.mk (raw.data.takeWhile (fun c => c ≠ '?'))

/-- `urlparse(raw).query` (fragments are not modelled). -/
def urlQuery (raw : String) : String :=
  String.mk (((raw.data.dropWhile (fun c => c ≠ '?')).drop 1))

/-- Skip JSON insignificant whitespace. -/
def jSkipWs (l : List Char) : List Char :=
  l.dropWhile (fun c => c = ' ' || c = '\t' || c = '\n' || c = '\r')

/-- JSON string body after the opening quote.  The basic escapes are
modelled; `\u` escapes and the control-character strictness of Python's
decoder are not. -/
def jStrChars : List Char → Option (List Char × List Char)
  | [] => none
  | '"' :: rest => some ([], rest)
  | '\\' :: e :: rest =>
    let c? : Option Char :=
      if e = '"' then some '"'
      else if e = '\\' then some '\\'
      else if e = '/' then some '/'
      else if e = 'b' then some (Char.ofNat 8)
      else if e = 'f' then some (Char.ofNat 12)
      else if e = 'n' then some '\n'
      else if e = 'r' then some '\r'
      else if e = 't' then some '\t'
      else none
    match c? with
    | some c => (jStrChars rest).map (fun p => (c :: p.1, p.2))
    | none => none
  | c :: rest => (jStrChars rest).map (fun p => (c :: p.1, p.2))

/-- JSON integer literal (floats and exponents are not modelled: a body that
is a float literal is treated as unparsable). -/
def jNumChars (l : List Char) : Option (Int × List Char) :=
  let signed : Bool × List Char :=
    match l with
    | '-' :: t => (true, t)
    | t => (false, t)
  let ds := signed.2.takeWhile (fun c => '0' ≤ c ∧ c ≤ '9')
  let rest := signed.2.drop ds.length
  match ds with
  | [] => none
  | '0' :: _ :: _ => none
  | _ =>
    match rest with
    | '.' :: _ => none
    | 'e' :: _ => none
    | 'E' :: _ => none
    | _ =>
      match digitsVal 10 ds with
      | some v => some ((if signed.1 then -(v : Int) else (v : Int)), rest)
      | none => none

mutual
def jVal : Nat → List Char → Option (Json × List Char)
  | 0, _ => none
  | f + 1, l =>
    match jSkipWs l with
    | 'n' :: 'u' :: 'l' :: 'l' :: rest => some (.null, rest)
    | 't' :: 'r' :: 'u' :: 'e' :: rest => some (.bool true, rest)
    | 'f' :: 'a' :: 'l' :: 's' :: 'e' :: rest => some (.bool false, rest)
    | '"' :: rest => (jStrChars rest).map (fun p => (.str (String.mk p.1), p.2))
    | '[' :: rest =>
      (match jSkipWs rest with
       | ']' :: r2 => some (.arr [], r2)
       | l2 => (jElems f l2).map (fun p => (.arr p.1, p.2)))
    | '{' :: rest =>
      (match jSkipWs rest with
       | '}' :: r2 => some (.obj [], r2)
       | l2 => (jMembers f l2).map (fun p => (.obj (dictOfPairs p.1), p.2)))
    | l' => (jNumChars l').map (fun p => (.num p.1, p.2))

def jElems : Nat → List Char → Option (List Json × List Char)
  | 0, _ => none
  | f + 1, l =>
    (jVal f l).bind fun p =>
      match jSkipWs p.2 with
      | ',' :: r2 => (jElems f r2).map (fun q => (p.1 :: q.1, q.2))
      | ']' :: r2 => some ([p.1], r2)
      | _ => none

def jMembers : Nat → List Char → Option (List (String × Json) × List Char)
  | 0, _ => none
  | f + 1, l =>
    match jSkipWs l with
    | '"' :: rest =>
      (jStrChars rest).bind fun kp =>
        match jSkipWs kp.2 with
        | ':' :: r2 =>
          (jVal f r2).bind fun vp =>
            match jSkipWs vp.2 with
            | ',' :: r3 => (jMembers f r3).map (fun q => ((String.mk kp.1, vp.1) :: q.1, q.2))
            | '}' :: r3 => some ([(String.mk kp.1, vp.1)], r3)
            | _ => none
        | _ => none
    | _ => none
end

/-- Model of Python `json.loads`: parse one value, allow trailing
whitespace, reject trailing garbage.  Duplicate object keys keep the last
value, as in Python. -/
def jsonLoads (s : String) : Option Json :=
  match jVal (2 * s.data.length + 4) s.data with
  | some (v, rest) => if (jSkipWs rest).isEmpty then some v else none
  | none => none

/-- Python slice `l[a:b]` with int bounds: negative indices count from the
end, all bounds are clamped, and out-of-range slices are empty rather than
erroring. -/
def pySlice (l : List α) (a b : Int) : List α :=
  let n : Int := l.length
  let a' : Int := if a < 0 then max (a + n) 0 else min a n
  let b' : Int := if b < 0 then max (b + n) 0 else min b n
  (l.take b'.toNat).drop a'.toNat

/-- src/plugins/binary_ninja_mcp/utils/string_utils.py `parse_int_or_default`:
absent or unparsable values give the default; the parsed value (including a
negative one) is returned otherwise. -/
def parse_int_or_default (val : Option String) (default : Int) : Int :=
  match val with
  | none => default
  | some s =>
    match pyIntDec s with
    | some v => v
    | none => default

/-- Python `repr` of a JSON-decoded value (nested positions of `str(x)`),
restricted: string escapes inside repr are not modelled. -/
def pyRepr : Nat → Json → String
  | _, .null => "None"
  | _, .bool b => if b then "True" else "False"
  | _, .num n => toString n
  | _, .str s => "\x27" ++ s ++ "\x27"
  | 0, .arr _ => "[...]"
  | 0, .obj _ => "\x7b...\x7d"
  | f + 1, .arr xs =>
    "[" ++ String.intercalate ", " (xs.map (pyRepr f)) ++ "]"
  | f + 1, .obj fs =>
    "\x7b" ++ String.intercalate ", "
      (fs.map (fun p => "\x27" ++ p.1 ++ "\x27: " ++ pyRepr f p.2)) ++ "\x7d"

/-- Python `str(x)` of a JSON-decoded value as used in f-string
interpolation. -/
def pyStrJson (j : Json) : String :=
  match j with
  | .str s => s
  | _ => pyRepr 64 j

/-- An identifier as passed to BinaryOperations: Python `Union[str, int]`,
with `bool` included because Python bools are ints. -/
inductive Ident where
  | str (s : String)
  | int (n : Int)
  | bool (b : Bool)

/-- Python `str(identifier)`. -/
def pyStrIdent : Ident → String
  | .str s => s
  | .int n => toString n
  | .bool b => if b then "True" else "False"

/-- The JSON value a response serializes an identifier to. -/
def jsonOfIdent : Ident → Json
  | .str s => .str s
  | .int n => .num n
  | .bool b => .bool b

/-- The function symbol data the handler code reads off a Binary Ninja
function object. -/
structure SymInfo where
  symType : String
  fullName : String

/-- A function in the loaded binary, as the handler code observes it through
the Facade. -/
structure Func where
  name : String
  start : Nat
  rawName : String
  symbol : Option SymInfo

/-- A symbol-table entry as observed through the Facade. -/
structure SymbolRec where
  name : String
  rawName : String
  fullName : String
  address : Nat
  symType : String

/-- The loaded binary view.  `functions` and `symbols` are in the Facade's
native enumeration order.  `classNames`, `segmentItems` and `dataItems`
carry the outcome of host-API attribute probing that the handler code only
sorts/paginates; `hlilText` is the decompiler's output per function start
(absence models a decompiler failure); `renameAssignWorks` is whether a host
`func.name = new_name` assignment takes effect. -/
structure BView where
  filename : String
  functions : List Func
  symbols : List SymbolRec
  classNames : List String
  segmentItems : List Json
  dataItems : List Json
  hlilText : List (Nat × String)
  validOffsets : List Nat
  comments : List (Nat × String)
  renameAssignWorks : Bool

/-- Facade `bv.get_function_at(addr)`: the function starting at `addr`. -/
def getFunctionAt (v : BView) (a : Int) : Option Func :=
  v.functions.find? (fun f => decide ((f.start : Int) = a))

/-- Facade `bv.is_valid_offset(addr)`. -/
def isValidOffset (v : BView) (a : Int) : Bool :=
  v.validOffsets.any (fun n => decide ((n : Int) = a))

/-- Facade `bv.get_symbol_by_raw_name(name)`. -/
def getSymbolByRawName (v : BView) (s : String) : Option SymbolRec :=
  v.symbols.find? (fun sym => sym.rawName = s)

/-- Steps 1 and 2 of BinaryOperations.get_function_by_name_or_address: the
address value, when the identifier parses as one (`int(identifier, 16)` for
a `0x`-prefixed string, `int(identifier)` for any other string, the value
itself for an int; Python bools are ints with values 1 and 0). -/
def resolveAddrOpt : Ident → Option Int
  | .int n => some n
  | .bool b => some (if b then 1 else 0)
  | .str s => if startsWith2 s "0x" then pyIntHex s else pyIntDec s

/-- `func.name == identifier` (Python equality between a str and a non-str
is False). -/
def identNameEq (ident : Ident) (nm : String) : Bool :=
  match ident with
  | .str s => nm = s
  | _ => false

/-- Steps 3-5 of get_function_by_name_or_address: case-sensitive name match,
case-insensitive name match, then symbol-table lookup by raw name (a symbol
with a falsy address 0 is skipped by `if symbol and symbol.address`). -/
def nameFallback (v : BView) (ident : Ident) : Option Func :=
  match v.functions.find? (fun f => identNameEq ident f.name) with
  | some f => some f
  | none =>
    match v.functions.find? (fun f => lowerStr f.name = lowerStr (pyStrIdent ident)) with
    | some f => some f
    | none =>
      match getSymbolByRawName v (pyStrIdent ident) with
      | some sym => if sym.address ≠ 0 then getFunctionAt v (sym.address : Int) else none
      | none => none

/-- BinaryOperations.get_function_by_name_or_address on a loaded view: the
address steps (a numeric-parse ValueError falls through), then the name
steps, else None. -/
def getFunctionByNameOrAddress (v : BView) (ident : Ident) : Option Func :=
  match (resolveAddrOpt ident).bind (getFunctionAt v) with
  | some f => some f
  | none => nameFallback v ident

/-- The per-function dict built by BinaryOperations.get_function_names. -/
def funcRec (f : Func) : Json :=
  .obj [("name", .str f.name), ("address", .str (hexStr f.start)),
        ("raw_name", .str f.rawName)]

/-- BinaryOperations.get_function_names: all function records, sliced
`[offset : offset + limit]`. -/
def getFunctionNames (v : BView) (off lim : Int) : List Json :=
  pySlice (v.functions.map funcRec) off (off + lim)

/-- The symbol sub-dict of get_function_info. -/
def symInfoJson : Option SymInfo → Json
  | none => .null
  | some si => .obj [("type", .str si.symType), ("full_name", .str si.fullName)]

/-- BinaryOperations.get_function_info on a loaded view. -/
def getFunctionInfo (v : BView) (ident : Ident) : Option Json :=
  (getFunctionByNameOrAddress v ident).map fun f =>
    .obj [("name", .str f.name), ("raw_name", .str f.rawName),
          ("address", .str (hexStr f.start)), ("symbol", symInfoJson f.symbol)]

/-- BinaryOperations.decompile_function on a loaded view: None when the
identifier resolves to no function or the decompiler raises. -/
def decompileFunction (v : BView) (ident : Ident) : Option String :=
  (getFunctionByNameOrAddress v ident).bind fun f =>
    (v.hlilText.find? (fun p => p.1 = f.start)).map (fun p => p.2)

/-- BinaryOperations.rename_function: False when the identifier resolves to
no function or the new name is falsy or not a string; otherwise the host
assignment decides (further symbol/update fallbacks are host behaviour
folded into `renameAssignWorks`). -/
def renameFunction (v : BView) (ident : Ident) (newName : Json) : Bool :=
  match getFunctionByNameOrAddress v ident with
  | none => false
  | some _ =>
    match newName with
    | .str s => if s.data.isEmpty then false else v.renameAssignWorks
    | _ => false

/-- BinaryOperations.rename_data: True iff the offset is valid and the host
symbol definition succeeds (a non-string name raises inside the try and
yields False). -/
def renameData (v : BView) (a : Int) (newName : Json) : Bool :=
  match newName with
  | .str _ => isValidOffset v a
  | _ => false

/-- Facade `bv.get_comment_at`. -/
def getCommentAt (v : BView) (a : Nat) : Option String :=
  (v.comments.find? (fun p => p.1 = a)).map (fun p => p.2)

/-- BinaryOperations.delete_comment: setting the comment to the explicit
absent value (`set_comment_at(address, None)` clears it); True iff the
offset is valid. -/
def deleteComment (v : BView) (a : Int) : Bool × BView :=
  if isValidOffset v a then
    (true, { v with comments := v.comments.filter (fun p => decide (((p.1 : Nat) : Int) ≠ a)) })
  else (false, v)

/-- Insert into an address-keyed comment map (existing address keeps its
position and takes the new text). -/
def dictInsertNat (d : List (Nat × String)) (k : Nat) (v : String) : List (Nat × String) :=
  if d.any (fun p => p.1 = k) then
    d.map (fun p => if p.1 = k then (k, v) else p)
  else d ++ [(k, v)]

/-- BinaryOperations.set_comment on a loaded view. -/
def setComment (v : BView) (a : Int) (text : String) : Bool × BView :=
  if isValidOffset v a ∧ 0 ≤ a then
    (true, { v with comments := dictInsertNat v.comments a.toNat text })
  else (false, v)

/-- Index of the first occurrence of a (nonempty) pattern. -/
def findSeq (pat : List Char) : List Char → Option Nat
  | [] => if leadsWith pat [] then some 0 else none
  | c :: rest =>
    if leadsWith pat (c :: rest) then some 0
    else (findSeq pat rest).map (fun i => i + 1)

/-- Python `s.split(sep)` for a multi-character separator: greedy
left-to-right, non-overlapping. -/
def splitSeqGo (pat : List Char) : Nat → List Char → List (List Char)
  | 0, l => [l]
  | f + 1, l =>
    match findSeq pat l with
    | none => [l]
    | some i => l.take i :: splitSeqGo pat f (l.drop (i + pat.length))

def pySplitSeq (sep s : String) : List String :=
  (splitSeqGo sep.data (s.data.length + 1) s.data).map String.mk

/-- Python `sep.join(parts)`. -/
def joinSeq (sep : String) (parts : List String) : String :=
  String.intercalate sep parts

/-- BinaryNinjaEndpoints.get_imports record for one imported-function
symbol (`raw_name`/`full_name` host attributes carried in the model). -/
def importRec (sym : SymbolRec) : Json :=
  .obj [("name", .str sym.name), ("address", .str (hexStr sym.address)),
        ("raw_name", .str sym.rawName), ("full_name", .str sym.fullName)]

/-- BinaryNinjaEndpoints.get_imports on a loaded view. -/
def getImports (v : BView) (off lim : Int) : List Json :=
  pySlice ((v.symbols.filter (fun s => s.symType = "ImportedFunctionSymbol")).map importRec)
    off (off + lim)

def exportRec (sym : SymbolRec) : Json :=
  .obj [("name", .str sym.name), ("address", .str (hexStr sym.address)),
        ("raw_name", .str sym.rawName), ("full_name", .str sym.fullName),
        ("type", .str sym.symType)]

/-- BinaryNinjaEndpoints.get_exports on a loaded view. -/
def getExports (v : BView) (off lim : Int) : List Json :=
  pySlice ((v.symbols.filter (fun s =>
      !(s.symType = "ImportedFunctionSymbol" || s.symType = "ExternalSymbol"))).map exportRec)
    off (off + lim)

/-- String order used to model Python `sorted` / `list.sort` on names. -/
def nameOrd (a b : String) : Prop := strLe a b = true

instance : DecidableRel nameOrd := fun a b => decEq (strLe a b) true

/-- BinaryNinjaEndpoints.get_namespaces on a loaded view: the `::`-joined
parents of every symbol name containing `::`, de-duplicated (set), sorted,
sliced. -/
def getNamespaces (v : BView) (off lim : Int) : List Json :=
  let nss := v.symbols.filterMap fun sym =>
    if containsSeq "::" sym.name then
      some (joinSeq "::" ((pySplitSeq "::" sym.name).dropLast))
    else none
  pySlice ((List.insertionSort nameOrd nss.dedup).map Json.str) off (off + lim)

/-- BinaryOperations.get_class_names on a loaded view: the host-probed name
set, sorted, sliced. -/
def getClassNames (v : BView) (off lim : Int) : List Json :=
  pySlice ((List.insertionSort nameOrd v.classNames.dedup).map Json.str) off (off + lim)

/-- BinaryOperations.get_segments on a loaded view (record probing carried
in the model state). -/
def getSegments (v : BView) (off lim : Int) : List Json :=
  pySlice v.segmentItems off (off + lim)

/-- BinaryOperations.get_defined_data on a loaded view (record probing
carried in the model state). -/
def getDefinedData (v : BView) (off lim : Int) : List Json :=
  pySlice v.dataItems off (off + lim)

/-- One match record of BinaryNinjaEndpoints.search_functions, kept as a
structure so that the sort key (`x["name"]`) is a projection. -/
structure SRec where
  name : String
  start : Nat
  rawName : String
  symbol : Option SymInfo

def mkSRec (f : Func) : SRec := ⟨f.name, f.start, f.rawName, f.symbol⟩

def sRecJson (m : SRec) : Json :=
  .obj [("name", .str m.name), ("address", .str (hexStr m.start)),
        ("raw_name", .str m.rawName), ("symbol", symInfoJson m.symbol)]

def sRecOrd (a b : SRec) : Prop := strLe a.name b.name = true

instance : DecidableRel sRecOrd := fun a b => decEq (strLe a.name b.name) true

/-- `search_term.lower() in func.name.lower()`. -/
def searchMatches (q : String) (f : Func) : Bool :=
  containsSeq (lowerStr q) (lowerStr f.name)

/-- BinaryNinjaEndpoints.search_functions on a loaded view: empty query
gives no matches; otherwise the case-insensitive substring matches, stably
sorted by name (Python `list.sort(key=name)`), then sliced. -/
def searchFunctions (v : BView) (q : String) (off lim : Int) : List Json :=
  if q.data.isEmpty then []
  else
    (pySlice (List.insertionSort sRecOrd ((v.functions.filter (searchMatches q)).map mkSRec))
      off (off + lim)).map sRecJson

/-- An HTTP response as the handler emits it: status code plus JSON body. -/
structure Response where
  status : Nat
  body : Json

/-- What the router did with a request: short-circuited on the
binary-loaded precondition, dispatched a matched handler branch, or fell to
the unmatched-path 404. -/
inductive Dispatch where
  | shortCircuit
  | handled (branch : String)
  | unmatched
deriving DecidableEq

def noBinaryBody : Json := .obj [("error", .str "No binary loaded")]

def notFoundBody : Json := .obj [("error", .str "Not found")]

/-- MCPRequestHandler._parse_post_params: zero-length bodies decode to an
empty mapping; declared JSON / form / plain-text content types select one
decoder; any other content type tries JSON, then form (kept only when
non-empty), then binds the stripped raw body to `name`. -/
def parsePostParams (ct body : String) : Json :=
  if body.data.isEmpty then .obj []
  else if containsSeq "application/json" (lowerStr ct) then
    match jsonLoads body with
    | some v => v
    | none => .obj [("error", .str "Invalid JSON format")]
  else if containsSeq "application/x-www-form-urlencoded" (lowerStr ct) then
    .obj ((dictOfPairs (parseQsl body)).map (fun p => (p.1, Json.str p.2)))
  else if containsSeq "text/plain" (lowerStr ct) || ct.data.isEmpty then
    .obj [("name", .str (pyStrip body))]
  else
    match jsonLoads body with
    | some v => v
    | none =>
      let parsed := dictOfPairs (parseQsl body)
      if !parsed.isEmpty then .obj (parsed.map (fun p => (p.1, Json.str p.2)))
      else .obj [("name", .str (pyStrip body))]

/-- MCPRequestHandler._handle_decompile on a loaded view: 404 with up to 10
sample functions when the identifier resolves to nothing, 500 when the
decompiler yields nothing, 200 otherwise. -/
def handleDecompile (v : BView) (ident : Ident) : Response :=
  match getFunctionInfo v ident with
  | none =>
    Response.mk 404 (.obj
      [("error", .str "Function not found"),
       ("requested_name", jsonOfIdent ident),
       ("available_functions", .arr (getFunctionNames v 0 10))])
  | some info =>
    match decompileFunction v ident with
    | none =>
      Response.mk 500 (.obj
        [("error", .str "Decompilation failed"),
         ("function", info),
         ("reason", .str "Function could not be decompiled. This might be due to missing debug information or unsupported function type.")])
    | some code =>
      Response.mk 200 (.obj [("decompiled", .str code), ("function", info)])

/-- The GET /status body (`binary_ops` itself is always set by the running
server, so `loaded` is the presence of a current view). -/
def statusBody (bo : Option BView) : Json :=
  .obj [("loaded", .bool bo.isSome),
        ("filename", match bo with | some v => .str v.filename | none => .null)]

/-- The `RuntimeError("No binary loaded")` a BinaryOperations call raises
without a view, surfaced by the outer exception handler as a 500. -/
def noViewError : Response := Response.mk 500 noBinaryBody

/-- MCPRequestHandler.do_GET.  The binary-loaded precondition is skipped
exactly when the raw request path (query string included) starts with
`/status`; branch bodies that would call the Facade without a view raise
`RuntimeError("No binary loaded")`, which the outer handler turns into a
500. -/
def doGET (bo : Option BView) (raw : String) : Response × Dispatch :=
  if (!startsWith2 raw "/status") && bo.isNone then
    (Response.mk 400 noBinaryBody, .shortCircuit)
  else
    let params := dictOfPairs (parseQsl (urlQuery raw))
    let path := urlPath raw
    let off := parse_int_or_default (paramsGet params "offset") 0
    let lim := parse_int_or_default (paramsGet params "limit") 100
    if path = "/status" then
      (Response.mk 200 (statusBody bo), .handled "/status")
    else if path = "/functions" ∨ path = "/methods" then
      (match bo with
       | some v => (Response.mk 200 (.obj [("functions", .arr (getFunctionNames v off lim))]),
                    .handled "/functions")
       | none => (noViewError, .handled "/functions"))
    else if path = "/classes" then
      (match bo with
       | some v => (Response.mk 200 (.obj [("classes", .arr (getClassNames v off lim))]),
                    .handled "/classes")
       | none => (noViewError, .handled "/classes"))
    else if path = "/segments" then
      (match bo with
       | some v => (Response.mk 200 (.obj [("segments", .arr (getSegments v off lim))]),
                    .handled "/segments")
       | none => (noViewError, .handled "/segments"))
    else if path = "/imports" then
      (match bo with
       | some v => (Response.mk 200 (.obj [("imports", .arr (getImports v off lim))]),
                    .handled "/imports")
       | none => (noViewError, .handled "/imports"))
    else if path = "/exports" then
      (match bo with
       | some v => (Response.mk 200 (.obj [("exports", .arr (getExports v off lim))]),
                    .handled "/exports")
       | none => (noViewError, .handled "/exports"))
    else if path = "/namespaces" then
      (match bo with
       | some v => (Response.mk 200 (.obj [("namespaces", .arr (getNamespaces v off lim))]),
                    .handled "/namespaces")
       | none => (noViewError, .handled "/namespaces"))
    else if path = "/data" then
      (match bo with
       | some v => (Response.mk 200 (.obj [("data", .arr (getDefinedData v off lim))]),
                    .handled "/data")
       | none => (noViewError, .handled "/data"))
    else if path = "/searchFunctions" then
      (match bo with
       | some v =>
         let q := (paramsGet params "query").getD ""
         (Response.mk 200 (.obj [("matches", .arr (searchFunctions v q off lim))]),
          .handled "/searchFunctions")
       | none => (noViewError, .handled "/searchFunctions"))
    else if path = "/decompile" then
      (match
         (match paramsGet params "name" with
          | some s => if !s.data.isEmpty then some s else (paramsGet params "functionName")
          | none => paramsGet params "functionName") with
       | some s =>
         if !s.data.isEmpty then
           match bo with
           | some v => (handleDecompile v (.str s), .handled "/decompile")
           | none => (noViewError, .handled "/decompile")
         else
           (Response.mk 400 (.obj [("error", .str "Missing function name parameter. Use ?name=function_name or ?functionName=function_name")]),
            .handled "/decompile")
       | none =>
         (Response.mk 400 (.obj [("error", .str "Missing function name parameter. Use ?name=function_name or ?functionName=function_name")]),
          .handled "/decompile"))
    else
      (Response.mk 404 notFoundBody, .unmatched)

def truthyOpt : Option Json → Bool
  | some x => jTruthy x
  | none => false

/-- `params.get(...)` on a non-dict raises AttributeError, surfaced by the
outer exception handler as a 500 with the CPython message. -/
def attrGetError (params : Json) : Response :=
  Response.mk 500 (.obj [("error",
    .str ("\x27" ++ pyTypeName params ++ "\x27 object has no attribute \x27get\x27"))])

/-- Passing a non-(str/int) identifier into
get_function_by_name_or_address leaves `addr` unbound and raises NameError
before any Facade access; the outer handler turns it into a 500. -/
def nameErrorAddr : Response :=
  Response.mk 500 (.obj [("error", .str "name \x27addr\x27 is not defined")])

def identOfJson : Json → Option Ident
  | .str s => some (.str s)
  | .num n => some (.int n)
  | .bool b => some (.bool b)
  | _ => none

/-- do_POST `/load` (host load failures, the inner except branch, are not
modelled: no claim depends on them). -/
def loadBranch (params : Json) : Response :=
  match params with
  | .obj _ =>
    match jGet params "filepath" with
    | some fp =>
      if jTruthy fp then
        Response.mk 200 (.obj [("success", .bool true),
          ("message", .str ("Binary loaded: " ++ pyStrJson fp))])
      else Response.mk 400 (.obj [("error", .str "Missing filepath parameter")])
    | none => Response.mk 400 (.obj [("error", .str "Missing filepath parameter")])
  | _ => attrGetError params

/-- The old-name normalization of do_POST `/rename/function`: a
`0x`-prefixed string is parsed base 16 (kept as the string on a
ValueError), a digit string is parsed base 10, anything else is kept. -/
def oldNameNorm : Json → Json
  | .str s =>
    if startsWith2 s "0x" then
      match pyIntHex s with
      | some n => .num n
      | none => .str s
    else if pyIsDigit s then
      match pyIntDec s with
      | some n => .num n
      | none => .str s
    else .str s
  | j => j

/-- do_POST `/rename/function` and `/renameFunction`. -/
def renameFunctionBranch (v : BView) (params : Json) : Response :=
  match params with
  | .obj _ =>
    let old? := pyOr (jGet params "oldName") (jGet params "old_name")
    let new? := pyOr (jGet params "newName") (jGet params "new_name")
    if !truthyOpt old? || !truthyOpt new? then
      Response.mk 400 (.obj [("error", .str "Missing parameters"),
        ("help", .str "Required parameters: oldName (or old_name) and newName (or new_name)"),
        ("received", params)])
    else
      let oldN := oldNameNorm (old?.getD .null)
      let newJ := new?.getD .null
      match identOfJson oldN with
      | none => nameErrorAddr
      | some ident =>
        match getFunctionInfo v ident with
        | some info =>
          if renameFunction v ident newJ then
            Response.mk 200 (.obj [("success", .bool true),
              ("message", .str ("Successfully renamed function from " ++ pyStrJson oldN
                 ++ " to " ++ pyStrJson newJ)),
              ("function", info)])
          else
            Response.mk 500 (.obj [("error", .str "Failed to rename function"),
              ("message", .str "The function was found but could not be renamed. This might be due to permissions or binary restrictions."),
              ("function", info)])
        | none =>
          Response.mk 404 (.obj [("error", .str "Function not found"),
            ("requested", oldN),
            ("help", .str "Make sure the function exists. You can use either the function name or its address."),
            ("available_functions", .arr (getFunctionNames v 0 10))])
  | _ => attrGetError params

/-- `int()` on a list/dict raises TypeError, which `except ValueError` does
not catch; the outer handler turns it into a 500. -/
def intTypeError (j : Json) : Response :=
  Response.mk 500 (.obj [("error",
    .str ("int() argument must be a string, a bytes-like object or a real number, not \x27"
      ++ pyTypeName j ++ "\x27"))])

/-- do_POST `/rename/data` and `/renameData`: a string address is parsed
with `int(address, 16)` whatever its shape; a ValueError gives the 400
Invalid-address response. -/
def renameDataBranch (v : BView) (params : Json) : Response :=
  match params with
  | .obj _ =>
    let addr? := jGet params "address"
    let new? := pyOr (jGet params "newName") (jGet params "new_name")
    if !truthyOpt addr? || !truthyOpt new? then
      Response.mk 400 (.obj [("error", .str "Missing parameters")])
    else
      let newJ := new?.getD .null
      match addr?.getD .null with
      | .str s =>
        (match pyIntHex s with
         | some n => Response.mk 200 (.obj [("success", .bool (renameData v n newJ))])
         | none => Response.mk 400 (.obj [("error", .str "Invalid address format")]))
      | .num k => Response.mk 200 (.obj [("success", .bool (renameData v k newJ))])
      | .bool b => Response.mk 200 (.obj [("success", .bool (renameData v (if b then 1 else 0) newJ))])
      | other => intTypeError other
  | _ => attrGetError params

def missingNameBody (v : BView) (params : Json) : Json :=
  .obj [("error", .str "Missing function name parameter"),
        ("help", .str "Send the function name using one of these formats:"),
        ("formats", .arr
          [.str "POST /decompile with JSON body: \x7b\x27name\x27: \x27function_name\x27\x7d",
           .str "POST /decompile with form data: name=function_name",
           .str "POST /decompile with raw text: function_name",
           .str "GET /decompile?name=function_name"]),
        ("received_params", params),
        ("available_functions", .arr (getFunctionNames v 0 10))]

/-- The function@address handling of do_POST `/decompile`: when the
identifier contains `@` it is split on every `@` and unpacked into exactly
two parts (three or more parts raise the unpack ValueError, surfaced as a
500); the address part is parsed base 16 when `0x`-prefixed and base 10
otherwise, an address-parse failure falls back to the name part. -/
def decompileAfterName (v : BView) (f : Json) : Response :=
  if containsSeq "@" (pyStrJson f) then
    match f with
    | .str s =>
      (match s.data.splitOn '@' with
       | [n1, a1] =>
         (match (if leadsWith ['0', 'x'] a1 then pyIntOfChars true a1 else pyIntOfChars false a1) with
          | some n => handleDecompile v (.int n)
          | none => handleDecompile v (.str (String.mk n1)))
       | _ => Response.mk 500 (.obj [("error", .str "too many values to unpack (expected 2)")]))
    | other =>
      Response.mk 500 (.obj [("error",
        .str ("\x27" ++ pyTypeName other ++ "\x27 object has no attribute \x27split\x27"))])
  else
    match identOfJson f with
    | some ident => handleDecompile v ident
    | none => nameErrorAddr

/-- do_POST `/decompile`. -/
def decompileBranch (v : BView) (params : Json) : Response :=
  let fn? : Option Json :=
    match params with
    | .obj _ =>
      pyOr (jGet params "functionName")
        (pyOr (jGet params "name") (pyOr (jGet params "function") (jGet params "data")))
    | .str s => some (.str (pyStrip s))
    | _ => none
  match fn? with
  | some f =>
    let isErrDict : Bool :=
      match f with
      | .obj fs => (fs.find? (fun p => p.1 = "error")).isSome
      | _ => false
    if isErrDict then
      Response.mk 400 (.obj [("error", .str "Invalid parameter format"),
        ("details", (jGet f "error").getD .null),
        ("received", params)])
    else if !jTruthy f then Response.mk 400 (missingNameBody v params)
    else decompileAfterName v f
  | none => Response.mk 400 (missingNameBody v params)

/-- MCPRequestHandler.do_POST: the binary-loaded precondition is checked
unconditionally (the status path included), then the body is decoded and
the path dispatched; unmatched paths give the 404 Not-found envelope (there
is no `/comment` branch). -/
def doPOST (bo : Option BView) (raw ct body : String) : Response × Dispatch :=
  match bo with
  | none => (Response.mk 400 noBinaryBody, .shortCircuit)
  | some v =>
    let params := parsePostParams ct body
    let path := urlPath raw
    if path = "/load" then (loadBranch params, .handled "/load")
    else if path = "/rename/function" ∨ path = "/renameFunction" then
      (renameFunctionBranch v params, .handled "/rename/function")
    else if path = "/rename/data" ∨ path = "/renameData" then
      (renameDataBranch v params, .handled "/rename/data")
    else if path = "/decompile" then
      (decompileBranch v params, .handled "/decompile")
    else (Response.mk 404 notFoundBody, .unmatched)

theorem leadsWith_iff (a b : List Char) : leadsWith a b = true ↔ a <+: b := by
  induction a generalizing b with
  | nil => simp [leadsWith]
  | cons x xs ih =>
    cases b with
    | nil => simp [leadsWith]
    | cons y ys =>
      simp [leadsWith, ih, List.cons_prefix_cons, Bool.and_eq_true, decide_eq_true_eq]

theorem pySlice_nat {α : Type _} (l : List α) (off lim : Nat) :
    pySlice l (off : Int) ((off : Int) + (lim : Int)) = (l.drop off).take lim := by
  unfold pySlice
  have h1 : ¬((off : Int) < 0) := by omega
  have h2 : ¬((off : Int) + (lim : Int) < 0) := by omega
  simp only [if_neg h1, if_neg h2]
  have e1 : (min ((off : Int) + (lim : Int)) ((l.length : Nat) : Int)).toNat
      = min (off + lim) l.length := by omega
  have e2 : (min (off : Int) ((l.length : Nat) : Int)).toNat = min off l.length := by omega
  rw [e1, e2]
  rcases le_or_lt off l.length with h | h
  · have ht : l.take (min (off + lim) l.length) = l.take (off + lim) := by
      rw [List.take_eq_take]
      omega
    have ho : min off l.length = off := by omega
    rw [ht, ho, List.drop_take]
    congr 1
    omega
  · have ho : min off l.length = l.length := by omega
    rw [ho]
    rw [List.drop_eq_nil_of_le (by simp [List.length_take])]
    rw [List.drop_eq_nil_of_le (by omega)]
    simp

theorem getFunctionNames_len_le (v : BView) :
    (getFunctionNames v 0 10).length ≤ 10 := by
  unfold getFunctionNames
  have h := pySlice_nat (v.functions.map funcRec) 0 10
  norm_num at h ⊢
  rw [h]
  simp

theorem lexLe_total (a b : List Char) : lexLe a b = true ∨ lexLe b a = true := by
  induction a generalizing b with
  | nil => left; rfl
  | cons x xs ih =>
    cases b with
    | nil => right; rfl
    | cons y ys =>
      by_cases h1 : x.toNat < y.toNat
      · left; simp [lexLe, h1]
      · by_cases h2 : x.toNat = y.toNat
        · rcases ih ys with h | h
          · left; simp [lexLe, h1, h2, h]
          · right
            have h1' : ¬(y.toNat < x.toNat) := by omega
            simp [lexLe, h1', h2.symm, h]
        · right
          have h3 : y.toNat < x.toNat := by omega
          simp [lexLe, h3]

theorem lexLe_trans (a b c : List Char) (hab : lexLe a b = true)
    (hbc : lexLe b c = true) : lexLe a c = true := by
  induction a generalizing b c with
  | nil => rfl
  | cons x xs ih =>
    cases b with
    | nil => simp [lexLe] at hab
    | cons y ys =>
      cases c with
      | nil => simp [lexLe] at hbc
      | cons z zs =>
        simp only [lexLe] at hab hbc ⊢
        split_ifs at hab hbc ⊢ <;> try omega
        all_goals (try exact hab)
        all_goals (try exact hbc)
        all_goals exact ih ys zs hab hbc

instance : IsTotal SRec sRecOrd :=
  ⟨fun a b => by
    unfold sRecOrd strLe
    rcases lexLe_total a.name.data b.name.data with h | h
    · exact Or.inl h
    · exact Or.inr h⟩

instance : IsTrans SRec sRecOrd :=
  ⟨fun a b c hab hbc => lexLe_trans a.name.data b.name.data c.name.data hab hbc⟩

theorem status_path_shape (raw : String) (h : startsWith2 raw "/status" = true) :
    ∃ rest, (urlPath raw).data = '/' :: 's' :: 't' :: 'a' :: 't' :: 'u' :: 's' :: rest := by
  unfold startsWith2 at h
  rw [leadsWith_iff] at h
  obtain ⟨t, ht⟩ := h
  refine ⟨t.takeWhile (fun c => c ≠ '?'), ?_⟩
  unfold urlPath
  rw [← ht]
  rfl

/-- C1 (amended): with no Program Handle, the router behaves as follows.  A
GET whose path resolves to exactly the status path answers 200 with the
loaded-false/filename-null status body.  A GET whose raw path (query string
included) does not start with the /status prefix short-circuits with 400
and the No-binary-loaded envelope before dispatching any handler.  Every
POST, the status path included, short-circuits with the same 400.  A GET
whose raw path starts with the /status prefix without the path being
exactly /status is not short-circuited and falls through dispatch to the
404 Not-found envelope. -/
theorem c1_amended (raw ct body : String) :
    (urlPath raw = "/status" →
      doGET none raw = (Response.mk 200 (statusBody none), Dispatch.handled "/status")) ∧
    (startsWith2 raw "/status" = false →
      doGET none raw = (Response.mk 400 noBinaryBody, Dispatch.shortCircuit)) ∧
    (doPOST none raw ct body = (Response.mk 400 noBinaryBody, Dispatch.shortCircuit)) ∧
    (startsWith2 raw "/status" = true → urlPath raw ≠ "/status" →
      doGET none raw = (Response.mk 404 notFoundBody, Dispatch.unmatched)) := by
  refine ⟨?_, ?_, rfl, ?_⟩
  · intro hp
    have hs : startsWith2 raw "/status" = true := by
      unfold startsWith2
      rw [leadsWith_iff]
      have := List.takeWhile_prefix (l := raw.data) (fun c => c ≠ '?')
      rw [show List.takeWhile (fun c => c ≠ '?') raw.data = ("/status").data by
        rw [← hp]; rfl] at this
      exact this
    simp [doGET, hs, hp]
  · intro hs
    simp [doGET, hs]
  · intro hs hp
    obtain ⟨rest, hr⟩ := status_path_shape raw hs
    have h3 : (urlPath raw).data.take 3 = ['/', 's', 't'] := by rw [hr]; rfl
    have nf : ∀ L : String, L.data.take 3 ≠ ['/', 's', 't'] → urlPath raw ≠ L := by
      intro L hL he
      rw [he] at h3
      exact hL h3
    have d1 : urlPath raw ≠ "/functions" := nf _ (by decide)
    have d2 : urlPath raw ≠ "/methods" := nf _ (by decide)
    have d3 : urlPath raw ≠ "/classes" := nf _ (by decide)
    have d4 : urlPath raw ≠ "/segments" := nf _ (by decide)
    have d5 : urlPath raw ≠ "/imports" := nf _ (by decide)
    have d6 : urlPath raw ≠ "/exports" := nf _ (by decide)
    have d7 : urlPath raw ≠ "/namespaces" := nf _ (by decide)
    have d8 : urlPath raw ≠ "/data" := nf _ (by decide)
    have d9 : urlPath raw ≠ "/searchFunctions" := nf _ (by decide)
    have d10 : urlPath raw ≠ "/decompile" := nf _ (by decide)
    simp [doGET, hs, hp, d1, d2, d3, d4, d5, d6, d7, d8, d9, d10]

/-- C1 counterexample: GET /statusfoo with no Program Handle answers 404
Not-found (the status-prefix test bypasses the no-binary check yet no route
matches), not the claimed 400 short-circuit; and POST /status answers a 400
short-circuit, not the claimed 200 status body. -/
theorem c1_counterexample :
    doGET none "/statusfoo" = (Response.mk 404 notFoundBody, Dispatch.unmatched) ∧
    (doGET none "/statusfoo").1.status ≠ 400 ∧
    doPOST none "/status" "" "" = (Response.mk 400 noBinaryBody, Dispatch.shortCircuit) ∧
    (doPOST none "/status" "" "").1.status ≠ 200 :=
  ⟨rfl, by decide, rfl, by decide⟩

/-- C1 witness: the amended routing facts evaluated at concrete requests. -/
theorem c1_witness :
    doGET none "/status?x=1" = (Response.mk 200 (statusBody none), Dispatch.handled "/status") ∧
    doGET none "/functions?offset=2" = (Response.mk 400 noBinaryBody, Dispatch.shortCircuit) ∧
    doPOST none "/functions" "application/json" "\x7b\x7d"
      = (Response.mk 400 noBinaryBody, Dispatch.shortCircuit) ∧
    doGET none "/status/extra" = (Response.mk 404 notFoundBody, Dispatch.unmatched) :=
  ⟨(c1_amended "/status?x=1" "" "").1 rfl,
   (c1_amended "/functions?offset=2" "" "").2.1 rfl,
   (c1_amended "/functions" "application/json" "\x7b\x7d").2.2.1,
   (c1_amended "/status/extra" "" "").2.2.2 rfl (by decide)⟩

def c2f1 : Func := ⟨"alpha", 10, "alpha", none⟩
def c2f2 : Func := ⟨"beta", 20, "beta", none⟩
def c2view : BView := ⟨"c2.bin", [c2f1, c2f2], [], [], [], [], [], [], [], true⟩

/-- C2 counterexample: a negative offset is not normalized to the default:
parse_int_or_default passes -1 through, and GET /functions?offset=-1 on a
two-function view returns only the final record (Python wraps the negative
slice index), not the claimed full default window. -/
theorem c2_counterexample :
    (doGET (some c2view) "/functions?offset=-1").1
      = Response.mk 200 (.obj [("functions", .arr [funcRec c2f2])]) ∧
    parse_int_or_default (some "-1") 0 = -1 ∧
    Json.arr [funcRec c2f2] ≠ Json.arr [funcRec c2f1, funcRec c2f2] :=
  ⟨rfl, rfl, by simp⟩

/-- C2 (amended): absent and non-numeric offset/limit values normalize to
the defaults, and for non-negative window values every list endpoint slice
equals dropping the offset then taking the limit, with an offset at or
beyond the sequence length yielding an empty result; negative numeric
values, however, are passed through to Python slicing unnormalized. -/
theorem c2_amended :
    (∀ d : Int, parse_int_or_default none d = d) ∧
    (∀ (s : String) (d : Int), pyIntDec s = none → parse_int_or_default (some s) d = d) ∧
    (∀ (v : BView) (off lim : Nat),
        getFunctionNames v (off : Int) (lim : Int)
          = ((v.functions.map funcRec).drop off).take lim) ∧
    (∀ (v : BView) (off lim : Nat),
        getSegments v (off : Int) (lim : Int) = (v.segmentItems.drop off).take lim) ∧
    (∀ (v : BView) (off lim : Nat),
        getDefinedData v (off : Int) (lim : Int) = (v.dataItems.drop off).take lim) ∧
    (∀ (v : BView) (off lim : Nat),
        getImports v (off : Int) (lim : Int)
          = (((v.symbols.filter (fun s => s.symType = "ImportedFunctionSymbol")).map importRec).drop off).take lim) ∧
    (∀ (v : BView) (off lim : Nat),
        getExports v (off : Int) (lim : Int)
          = (((v.symbols.filter (fun s =>
              !(s.symType = "ImportedFunctionSymbol" || s.symType = "ExternalSymbol"))).map exportRec).drop off).take lim) ∧
    (∀ (v : BView) (off lim : Nat),
        getClassNames v (off : Int) (lim : Int)
          = (((List.insertionSort nameOrd v.classNames.dedup).map Json.str).drop off).take lim) ∧
    (∀ (α : Type) (l : List α) (off lim : Nat), l.length ≤ off →
        pySlice l (off : Int) ((off : Int) + (lim : Int)) = []) := by
  refine ⟨fun d => rfl, fun s d h => ?_, ?_, ?_, ?_, ?_, ?_, ?_, ?_⟩
  · simp [parse_int_or_default, h]
  · intro v off lim
    unfold getFunctionNames
    exact pySlice_nat _ off lim
  · intro v off lim
    unfold getSegments
    exact pySlice_nat _ off lim
  · intro v off lim
    unfold getDefinedData
    exact pySlice_nat _ off lim
  · intro v off lim
    unfold getImports
    exact pySlice_nat _ off lim
  · intro v off lim
    unfold getExports
    exact pySlice_nat _ off lim
  · intro v off lim
    unfold getClassNames
    exact pySlice_nat _ off lim
  · intro α l off lim h
    rw [pySlice_nat, List.drop_eq_nil_of_le h, List.take_nil]

/-- C2 witness: the normalization and windowing facts evaluated at concrete
inputs. -/
theorem c2_witness :
    parse_int_or_default (some "abc") 0 = 0 ∧
    getFunctionNames c2view 1 100 = [funcRec c2f2] ∧
    pySlice ([Json.null, Json.null] : List Json) ((5 : Nat) : Int)
      (((5 : Nat) : Int) + ((100 : Nat) : Int)) = [] :=
  ⟨c2_amended.2.1 "abc" 0 rfl,
   by rw [show ((1 : Int)) = ((1 : Nat) : Int) from rfl,
        show ((100 : Int)) = ((100 : Nat) : Int) from rfl,
        c2_amended.2.2.1 c2view 1 100]; rfl,
   c2_amended.2.2.2.2.2.2.2.2 Json [Json.null, Json.null] 5 100 (by decide)⟩

def c3view : BView := ⟨"c3.bin", [], [], [], [], [], [], [22], [], true⟩

/-- C3 counterexample: the rename-data handler parses the decimal digit
string "16" with `int(address, 16)`, yielding 22, so the Facade rename is
attempted at offset 22 (valid in this view, hence success true), not at the
claimed base-10 value 16 (invalid in this view, which would have reported
success false). -/
theorem c3_counterexample :
    pyIntHex "16" = some 22 ∧
    (doPOST (some c3view) "/rename/data" "application/x-www-form-urlencoded" "address=16&newName=x").1
      = Response.mk 200 (.obj [("success", .bool true)]) ∧
    renameData c3view 16 (.str "x") = false ∧
    isValidOffset c3view 22 = true :=
  ⟨rfl, rfl, rfl, rfl⟩

/-- C3 (amended): in the rename-data operation every string-valued address
is parsed with `int(address, 16)` - so a `0x`-prefixed hex string gets its
hex value, but a bare decimal digit string is also read base 16 - a string
that fails base-16 parsing gives the 400 Invalid-address-format response,
and a native integer passes through unchanged to the Facade. -/
theorem c3_amended (v : BView) (s nn : String) (k : Int)
    (hs : s.data.isEmpty = false) (hnn : nn.data.isEmpty = false) :
    (∀ n : Int, pyIntHex s = some n →
       renameDataBranch v (.obj [("address", .str s), ("newName", .str nn)])
         = Response.mk 200 (.obj [("success", .bool (renameData v n (.str nn)))])) ∧
    (pyIntHex s = none →
       renameDataBranch v (.obj [("address", .str s), ("newName", .str nn)])
         = Response.mk 400 (.obj [("error", .str "Invalid address format")])) ∧
    (k ≠ 0 →
       renameDataBranch v (.obj [("address", .num k), ("newName", .str nn)])
         = Response.mk 200 (.obj [("success", .bool (renameData v k (.str nn)))])) := by
  refine ⟨fun n hn => ?_, fun hn => ?_, fun hk => ?_⟩
  · simp [renameDataBranch, jGet, pyOr, truthyOpt, jTruthy, hs, hnn, hn]
  · simp [renameDataBranch, jGet, pyOr, truthyOpt, jTruthy, hs, hnn, hn]
  · simp [renameDataBranch, jGet, pyOr, truthyOpt, jTruthy, hk, hnn]

/-- C3 witness: the amended address normalization evaluated at concrete
parameters. -/
theorem c3_witness :
    renameDataBranch c3view (.obj [("address", .str "0x16"), ("newName", .str "x")])
      = Response.mk 200 (.obj [("success", .bool (renameData c3view 22 (.str "x")))]) ∧
    renameDataBranch c3view (.obj [("address", .str "zz"), ("newName", .str "x")])
      = Response.mk 400 (.obj [("error", .str "Invalid address format")]) ∧
    renameDataBranch c3view (.obj [("address", .num 22), ("newName", .str "x")])
      = Response.mk 200 (.obj [("success", .bool (renameData c3view 22 (.str "x")))]) :=
  ⟨(c3_amended c3view "0x16" "x" 22 rfl rfl).1 22 rfl,
   (c3_amended c3view "zz" "x" 22 rfl rfl).2.1 rfl,
   (c3_amended c3view "zz" "x" 22 rfl rfl).2.2 (by decide)⟩

/-- C4: whenever two identifier strings parse to the same address under the
resolution rule (base 16 for a `0x` prefix, base 10 otherwise) and a
function starts at that address, both identifiers resolve to that same
function; identifier resolution is a function of the view state, so equal
encodings give equal results. -/
theorem c4_hex_dec_equiv (v : BView) (s1 s2 : String) (n : Int) (f : Func)
    (h1 : resolveAddrOpt (.str s1) = some n) (h2 : resolveAddrOpt (.str s2) = some n)
    (hf : getFunctionAt v n = some f) :
    getFunctionByNameOrAddress v (.str s1) = some f ∧
    getFunctionByNameOrAddress v (.str s2) = some f ∧
    getFunctionByNameOrAddress v (.str s1) = getFunctionByNameOrAddress v (.str s2) := by
  have e1 : getFunctionByNameOrAddress v (.str s1) = some f := by
    unfold getFunctionByNameOrAddress
    rw [h1]
    simp [hf]
  have e2 : getFunctionByNameOrAddress v (.str s2) = some f := by
    unfold getFunctionByNameOrAddress
    rw [h2]
    simp [hf]
  exact ⟨e1, e2, e1.trans e2.symm⟩

def c4f : Func := ⟨"main", 16, "main", none⟩
def c4view : BView := ⟨"c4.bin", [c4f], [], [], [], [], [], [], [], true⟩

/-- C4 witness: "0x10" and "16" resolve to the same function at address 16. -/
theorem c4_witness :
    getFunctionByNameOrAddress c4view (.str "0x10") = some c4f ∧
    getFunctionByNameOrAddress c4view (.str "16") = some c4f ∧
    getFunctionByNameOrAddress c4view (.str "0x10")
      = getFunctionByNameOrAddress c4view (.str "16") :=
  c4_hex_dec_equiv c4view "0x10" "16" 16 c4f rfl rfl rfl

/-- C5: a numeric-parse failure in the address steps falls through to the
name-based steps instead of aborting resolution, and when every fallback
step fails - address lookup, case-sensitive name, case-insensitive name,
and symbol-table lookup - the resolver reports the None result (the
embedding is a total function, so no exception escapes). -/
theorem c5_exhaustion (v : BView) (ident : Ident) :
    (∀ s : String, resolveAddrOpt (.str s) = none →
        getFunctionByNameOrAddress v (.str s) = nameFallback v (.str s)) ∧
    ((resolveAddrOpt ident).bind (getFunctionAt v) = none →
     v.functions.find? (fun f => identNameEq ident f.name) = none →
     v.functions.find? (fun f => lowerStr f.name = lowerStr (pyStrIdent ident)) = none →
     (∀ sym : SymbolRec, getSymbolByRawName v (pyStrIdent ident) = some sym →
        sym.address ≠ 0 → getFunctionAt v (sym.address : Int) = none) →
     getFunctionByNameOrAddress v ident = none) := by
  constructor
  · intro s h
    unfold getFunctionByNameOrAddress
    rw [h]
    rfl
  · intro h1 h2 h3 h4
    unfold getFunctionByNameOrAddress
    rw [h1]
    unfold nameFallback
    rw [h2, h3]
    cases hsym : getSymbolByRawName v (pyStrIdent ident) with
    | none => rfl
    | some sym =>
      by_cases ha : sym.address ≠ 0
      · simp [ha, h4 sym hsym ha]
      · simp [ha]

def c5sym : SymbolRec := ⟨"nilsym", "nilsym", "nilsym", 0, "DataSymbol"⟩
def c5view : BView := ⟨"c5.bin", [⟨"main", 16, "main", none⟩], [c5sym], [], [], [], [], [], [], true⟩

/-- C5 witness: an unparsable hex identifier falls through to the name
steps, and unknown identifiers (one of them matching only a zero-address
symbol) exhaust every step and resolve to None. -/
theorem c5_witness :
    getFunctionByNameOrAddress c5view (.str "0xzz") = nameFallback c5view (.str "0xzz") ∧
    getFunctionByNameOrAddress c5view (.str "nosuch") = none ∧
    getFunctionByNameOrAddress c5view (.str "nilsym") = none :=
  ⟨(c5_exhaustion c5view (.str "0xzz")).1 "0xzz" rfl,
   (c5_exhaustion c5view (.str "nosuch")).2 rfl rfl rfl
     (fun sym h => Option.noConfusion h),
   (c5_exhaustion c5view (.str "nilsym")).2 rfl rfl rfl
     (fun sym h ha => by
       cases h
       exact absurd rfl ha)⟩

def c6f : Func := ⟨"a", 32, "a", none⟩
def c6view : BView := ⟨"c6.bin", [c6f], [], [], [], [], [(32, "int a()")], [], [], true⟩

/-- C6 counterexample: the handler splits on every `@`, not the first one:
decompiling "a@b@0x10" raises the two-target unpack ValueError and the
router answers 500, while splitting on the first `@` (name "a", unparsable
address "b@0x10") would have resolved the existing function named "a" and
answered 200. -/
theorem c6_counterexample :
    (doPOST (some c6view) "/decompile" "text/plain" "a@b@0x10").1
      = Response.mk 500 (.obj [("error", .str "too many values to unpack (expected 2)")]) ∧
    handleDecompile c6view (.str "a")
      = Response.mk 200 (.obj [("decompiled", .str "int a()"),
          ("function", .obj [("name", .str "a"), ("raw_name", .str "a"),
            ("address", .str "0x20"), ("symbol", .null)])]) ∧
    (doPOST (some c6view) "/decompile" "text/plain" "a@b@0x10").1.status ≠ 200 :=
  ⟨rfl, rfl, by decide⟩

/-- C6 (amended): an identifier containing exactly one `@` is split into a
name part and an address part, the address part is parsed base 16 when
`0x`-prefixed and base 10 otherwise, a successful parse resolves by that
address and a failed parse falls back to the name part alone; an identifier
containing two or more `@` characters instead raises the unpack ValueError,
surfaced as a 500 internal error. -/
theorem c6_amended (v : BView) (s : String) (hc : containsSeq "@" s = true) :
    (∀ (n1 a1 : List Char) (n : Int),
        s.data.splitOn '@' = [n1, a1] →
        (if leadsWith ['0', 'x'] a1 then pyIntOfChars true a1 else pyIntOfChars false a1) = some n →
        decompileAfterName v (.str s) = handleDecompile v (.int n)) ∧
    (∀ (n1 a1 : List Char),
        s.data.splitOn '@' = [n1, a1] →
        (if leadsWith ['0', 'x'] a1 then pyIntOfChars true a1 else pyIntOfChars false a1) = none →
        decompileAfterName v (.str s) = handleDecompile v (.str (String.mk n1))) ∧
    (∀ (p1 p2 p3 : List Char) (ps : List (List Char)),
        s.data.splitOn '@' = p1 :: p2 :: p3 :: ps →
        decompileAfterName v (.str s)
          = Response.mk 500 (.obj [("error", .str "too many values to unpack (expected 2)")])) := by
  refine ⟨fun n1 a1 n hs hn => ?_, fun n1 a1 hs hn => ?_, fun p1 p2 p3 ps hs => ?_⟩
  · simp [decompileAfterName, pyStrJson, hc, hs, hn]
  · simp [decompileAfterName, pyStrJson, hc, hs, hn]
  · simp [decompileAfterName, pyStrJson, hc, hs]

def c6g : Func := ⟨"bar", 4096, "bar", none⟩
def c6view2 : BView := ⟨"c6b.bin", [c6g], [], [], [], [], [(4096, "int bar()")], [], [], true⟩

/-- C6 witness: "foo@0x1000" resolves by address 4096 even though no
function named "foo" exists, an unparsable address falls back to the name
part, and a double-@ identifier gives the 500 unpack error. -/
theorem c6_witness :
    decompileAfterName c6view2 (.str "foo@0x1000") = handleDecompile c6view2 (.int 4096) ∧
    decompileAfterName c6view2 (.str "foo@zz") = handleDecompile c6view2 (.str "foo") ∧
    decompileAfterName c6view2 (.str "a@b@c")
      = Response.mk 500 (.obj [("error", .str "too many values to unpack (expected 2)")]) ∧
    getFunctionByNameOrAddress c6view2 (.str "foo") = none ∧
    handleDecompile c6view2 (.int 4096)
      = Response.mk 200 (.obj [("decompiled", .str "int bar()"),
          ("function", .obj [("name", .str "bar"), ("raw_name", .str "bar"),
            ("address", .str "0x1000"), ("symbol", .null)])]) :=
  ⟨(c6_amended c6view2 "foo@0x1000" rfl).1 ['f', 'o', 'o'] "0x1000".data 4096 rfl rfl,
   (c6_amended c6view2 "foo@zz" rfl).2.1 ['f', 'o', 'o'] "zz".data rfl rfl,
   (c6_amended c6view2 "a@b@c" rfl).2.2 ['a'] ['b'] ['c'] [] rfl,
   rfl, rfl⟩

/-- C7 counterexample: with an unrecognized content type, a successful JSON
parse wins even when it does not yield a non-empty mapping: body "123"
decodes to the bare number 123, although the form interpretation is empty
and the raw-text rule would have bound the body to the key name. -/
theorem c7_counterexample :
    parsePostParams "application/octet-stream" "123" = Json.num 123 ∧
    dictOfPairs (parseQsl "123") = [] ∧
    Json.num 123 ≠ Json.obj [("name", Json.str "123")] :=
  ⟨rfl, rfl, by simp⟩

/-- C7 (amended): for an unrecognized declared content type and a non-empty
body, the decoder attempts JSON, form-encoding, then the raw-text rule, in
that fixed order, but any successful JSON parse is returned regardless of
whether it is a non-empty mapping; only the form interpretation is subject
to the non-emptiness test before the raw-text fallback. -/
theorem c7_amended (ct body : String)
    (hjson : containsSeq "application/json" (lowerStr ct) = false)
    (hform : containsSeq "application/x-www-form-urlencoded" (lowerStr ct) = false)
    (htext : containsSeq "text/plain" (lowerStr ct) = false)
    (hctne : ct.data.isEmpty = false)
    (hbody : body.data.isEmpty = false) :
    (∀ j, jsonLoads body = some j → parsePostParams ct body = j) ∧
    (jsonLoads body = none → dictOfPairs (parseQsl body) ≠ [] →
        parsePostParams ct body
          = .obj ((dictOfPairs (parseQsl body)).map (fun p => (p.1, Json.str p.2)))) ∧
    (jsonLoads body = none → dictOfPairs (parseQsl body) = [] →
        parsePostParams ct body = .obj [("name", .str (pyStrip body))]) := by
  refine ⟨fun j hj => ?_, fun hj hp => ?_, fun hj hp => ?_⟩
  · simp [parsePostParams, hjson, hform, htext, hctne, hbody, hj]
  · have he : (dictOfPairs (parseQsl body)).isEmpty = false := by
      simpa [List.isEmpty_iff] using hp
    simp [parsePostParams, hjson, hform, htext, hctne, hbody, hj, he]
  · simp [parsePostParams, hjson, hform, htext, hctne, hbody, hj, hp]

/-- C7 witness: the amended decode order evaluated on concrete bodies under
an unrecognized content type. -/
theorem c7_witness :
    parsePostParams "application/octet-stream" "\x7b\"k\": 1\x7d" = Json.obj [("k", Json.num 1)] ∧
    parsePostParams "application/octet-stream" "name=value" = Json.obj [("name", Json.str "value")] ∧
    parsePostParams "application/octet-stream" "hello" = Json.obj [("name", Json.str "hello")] :=
  ⟨(c7_amended "application/octet-stream" "\x7b\"k\": 1\x7d" rfl rfl rfl rfl rfl).1 _ rfl,
   (c7_amended "application/octet-stream" "name=value" rfl rfl rfl rfl rfl).2.1 rfl (by decide),
   (c7_amended "application/octet-stream" "hello" rfl rfl rfl rfl rfl).2.2 rfl rfl⟩

/-- C8: when the rename-function old name (after its address normalization)
resolves to no function, and when a decompile identifier resolves to no
function, the responses carry status 404 and an available_functions list of
at most 10 entries (the slice of the function records at offset 0, limit
10). -/
theorem c8_not_found (v : BView) (ident ident2 : Ident) (s nn : String)
    (hs : s.data.isEmpty = false) (hnn : nn.data.isEmpty = false)
    (hnorm : identOfJson (oldNameNorm (.str s)) = some ident2)
    (hres : getFunctionByNameOrAddress v ident2 = none)
    (hres2 : getFunctionByNameOrAddress v ident = none) :
    (renameFunctionBranch v (.obj [("oldName", .str s), ("newName", .str nn)])).status = 404 ∧
    jGet (renameFunctionBranch v (.obj [("oldName", .str s), ("newName", .str nn)])).body
      "available_functions" = some (.arr (getFunctionNames v 0 10)) ∧
    (handleDecompile v ident).status = 404 ∧
    jGet (handleDecompile v ident).body "available_functions"
      = some (.arr (getFunctionNames v 0 10)) ∧
    (getFunctionNames v 0 10).length ≤ 10 := by
  have hinfo2 : getFunctionInfo v ident2 = none := by simp [getFunctionInfo, hres]
  have hinfo : getFunctionInfo v ident = none := by simp [getFunctionInfo, hres2]
  refine ⟨?_, ?_, ?_, ?_, getFunctionNames_len_le v⟩
  · simp [renameFunctionBranch, jGet, pyOr, truthyOpt, jTruthy, hs, hnn, hnorm, hinfo2]
  · simp [renameFunctionBranch, jGet, pyOr, truthyOpt, jTruthy, hs, hnn, hnorm, hinfo2,
      List.find?]
  · simp [handleDecompile, hinfo]
  · simp [handleDecompile, hinfo, jGet, List.find?]

def c8f1 : Func := ⟨"one", 1, "one", none⟩
def c8f2 : Func := ⟨"two", 2, "two", none⟩
def c8view : BView := ⟨"c8.bin", [c8f1, c8f2], [], [], [], [], [], [], [], true⟩

/-- C8 witness: renaming and decompiling nonexistent functions on a
two-function view give 404 envelopes with at most 10 sample functions. -/
theorem c8_witness :
    (renameFunctionBranch c8view (.obj [("oldName", .str "nosuch"), ("newName", .str "x")])).status = 404 ∧
    jGet (renameFunctionBranch c8view (.obj [("oldName", .str "nosuch"), ("newName", .str "x")])).body
      "available_functions" = some (.arr (getFunctionNames c8view 0 10)) ∧
    (handleDecompile c8view (.str "alsonothere")).status = 404 ∧
    jGet (handleDecompile c8view (.str "alsonothere")).body "available_functions"
      = some (.arr (getFunctionNames c8view 0 10)) ∧
    (getFunctionNames c8view 0 10).length ≤ 10 :=
  c8_not_found c8view (.str "alsonothere") (.str "nosuch") "nosuch" "x" rfl rfl rfl rfl rfl

def c9view : BView := ⟨"c9.bin", [], [], [], [], [], [], [4096], [], true⟩

/-- C9: the POST router has no /comment (or /comment/function) branch, so
the delete-comment request the bridge issues falls to the unmatched-path
404 Not-found envelope and never reaches the Facade; the Facade operation
itself (delete_comment, which sets the comment to the explicit absent
value) does succeed on a valid address with no comment set, leaves the
comment absent, and is idempotent, as the claim describes. -/
theorem c9_comment_route_missing :
    doPOST (some c9view) "/comment" "application/x-www-form-urlencoded" "address=0x1000&_method=DELETE"
      = (Response.mk 404 notFoundBody, Dispatch.unmatched) ∧
    doPOST (some c9view) "/comment/function" "application/x-www-form-urlencoded" "name=main&_method=DELETE"
      = (Response.mk 404 notFoundBody, Dispatch.unmatched) ∧
    getCommentAt c9view 4096 = none ∧
    (deleteComment c9view 4096).1 = true ∧
    getCommentAt (deleteComment c9view 4096).2 4096 = none ∧
    (deleteComment (deleteComment c9view 4096).2 4096).1 = true :=
  ⟨rfl, rfl, rfl, rfl, rfl, rfl⟩

/-- C10: a search with an empty query returns an empty matches list (and
the router wraps it in a 200 response with an empty matches array when the
query parameter is absent); a non-empty query returns a pagination window
over a list that is a permutation of exactly the case-insensitive substring
matches, sorted by name before the window is applied. -/
theorem c10_search (v : BView) (q : String) (off lim : Int) :
    searchFunctions v "" off lim = [] ∧
    (doGET (some v) "/searchFunctions").1 = Response.mk 200 (.obj [("matches", .arr [])]) ∧
    (q.data.isEmpty = false →
      ∃ L : List SRec,
        L.Perm ((v.functions.filter (searchMatches q)).map mkSRec) ∧
        L.Sorted sRecOrd ∧
        searchFunctions v q off lim = (pySlice L off (off + lim)).map sRecJson) := by
  refine ⟨rfl, rfl, fun hq => ?_⟩
  refine ⟨List.insertionSort sRecOrd ((v.functions.filter (searchMatches q)).map mkSRec),
    List.perm_insertionSort _ _, List.sorted_insertionSort _ _, ?_⟩
  simp [searchFunctions, hq]

def c10view : BView :=
  ⟨"c10.bin", [⟨"Beta", 1, "Beta", none⟩, ⟨"alpha", 2, "alpha", none⟩,
    ⟨"gamma", 3, "gamma", none⟩], [], [], [], [], [], [], [], true⟩

/-- C10 witness: the search contract evaluated on a concrete three-function
view with query "A". -/
theorem c10_witness :
    searchFunctions c10view "" 0 100 = [] ∧
    (doGET (some c10view) "/searchFunctions").1 = Response.mk 200 (.obj [("matches", .arr [])]) ∧
    (∃ L : List SRec,
        L.Perm ((c10view.functions.filter (searchMatches "A")).map mkSRec) ∧
        L.Sorted sRecOrd ∧
        searchFunctions c10view "A" 0 100 = (pySlice L 0 (0 + 100)).map sRecJson) :=
  ⟨(c10_search c10view "A" 0 100).1, (c10_search c10view "A" 0 100).2.1,
   (c10_search c10view "A" 0 100).2.2 rfl⟩
